import Mathlib

/-!
Shallow embedding of the MiWiFi integration's discovery and compatibility
core (custom_components/miwifi/{unsupported,compatibility,discovery,services}.py),
together with proofs about the embedded operations.

Python dicts are embedded as association lists with first-match lookup and
first-match update, which matches dict semantics whenever the keys are
distinct (as they always are for a Python dict).  `Model` enum members are
embedded as their lowercase string values (the enum module itself is not part
of the sources; `Model(info["hardware"].lower())` and comparisons against
string model names in the sources force value-based string identity, as the
spec's data model also describes).
-/

/-- Decidable equality for `Except`, used to evaluate concrete discovery and
checker outcomes. -/
instance exceptDecEq {ε α : Type} [DecidableEq ε] [DecidableEq α] :
    DecidableEq (Except ε α)
  | .ok x, .ok y =>
      if h : x = y then isTrue (congrArg Except.ok h)
      else isFalse (fun hh => h (by injection hh))
  | .ok _, .error _ => isFalse (fun hh => Except.noConfusion hh)
  | .error _, .ok _ => isFalse (fun hh => Except.noConfusion hh)
  | .error x, .error y =>
      if h : x = y then isTrue (congrArg Except.error h)
      else isFalse (fun hh => h (by injection hh))

/-- Python `str.strip()`: drop leading and trailing whitespace. -/
def pyStrip (s : String) : String :=
  ⟨((s.data.dropWhile Char.isWhitespace).reverse.dropWhile Char.isWhitespace).reverse⟩

/-- Python `str.lower()`: lowercase every character. -/
def pyLower (s : String) : String :=
  ⟨s.data.map Char.toLower⟩

/-- First-match lookup in an association list: `d.get(k)` on a Python dict. -/
def dlookup {α : Type} : List (String × α) → String → Option α
  | [], _ => none
  | (k', v) :: rest, k => if k' = k then some v else dlookup rest k

/-- `d.get(k, [])` on a Python dict of lists. -/
def dictGetD (d : List (String × List String)) (k : String) : List String :=
  (dlookup d k).getD []

/-- `d[k] = v` on a Python dict: replace the first binding of `k`, or append. -/
def dictSet {α : Type} : List (String × α) → String → α → List (String × α)
  | [], k, v => [(k, v)]
  | (k', v') :: rest, k, v =>
      if k' = k then (k, v) :: rest else (k', v') :: dictSet rest k v

/-- The inner loop of `get_combined_unsupported`:
`for model in value: if model not in combined[key]: combined[key].append(model)`. -/
def addModels (cur : List String) (ms : List String) : List String :=
  ms.foldl (fun acc m => if m ∈ acc then acc else acc ++ [m]) cur

/-- The built-in `UNSUPPORTED` registry literal from unsupported.py,
with `Model` members replaced by their lowercase string values. -/
def UNSUPPORTED : List (String × List String) :=
  [("new_status",
     ["r1d", "r2d", "r1cm", "r1cl", "r3p", "r3d", "r3l", "r3a", "r3",
      "r3g", "r4", "r4a", "r4ac", "r4c", "r4cm", "d01", "rn06"]),
   ("wifi_config", ["cr8806"]),
   ("mac_filter", ["rm1800"]),
   ("mac_filter_info", []),
   ("qos_info", []),
   ("vpn_control", [])]

/-- One iteration of the merge loop in `get_combined_unsupported`
(unsupported.py lines 27-32): ensure the key exists, then append each of the
user layer's models that is not already present. -/
def mergeEntry (comb : List (String × List String)) (kv : String × List String) :
    List (String × List String) :=
  let comb1 := if (dlookup comb kv.1).isSome then comb else comb ++ [(kv.1, [])]
  dictSet comb1 kv.1 (addModels (dictGetD comb1 kv.1) kv.2)

/-- `get_combined_unsupported` (unsupported.py lines 11-36): start from a copy
of the base layer and fold the user layer's entries into it. -/
def get_combined_unsupported (base user : List (String × List String)) :
    List (String × List String) :=
  user.foldl mergeEntry base

/-- `is_feature_unsupported` (unsupported.py lines 39-42):
`model in (await get_combined_unsupported(hass)).get(feature, [])`. -/
def is_feature_unsupported (base user : List (String × List String))
    (feature model : String) : Bool :=
  decide (model ∈ dictGetD (get_combined_unsupported base user) feature)

/-- Outcome of `MiWifiAddUnsupportedService.async_call_service`: the user
layer that is (re)written, and whether the "already present" branch was
taken (a distinct message is emitted in that case). -/
structure AddResult where
  userData : List (String × List String)
  alreadyExists : Bool
deriving Repr, DecidableEq

/-- `if key not in d: d[key] = v0` on a Python dict. -/
def ensureKey {α : Type} (d : List (String × α)) (k : String) (v0 : α) :
    List (String × α) :=
  if (dlookup d k).isSome then d else d ++ [(k, v0)]

/-- `MiWifiAddUnsupportedService.async_call_service` (services.py lines
686-700), after a successfully resolved model name: compute
`already_exists` over both layers; when absent, ensure the feature key in
the user layer and append the model. -/
def addUnsupported (base user : List (String × List String))
    (feature model : String) : AddResult :=
  if model ∈ dictGetD user feature ∨ model ∈ dictGetD base feature then
    ⟨user, true⟩
  else
    ⟨dictSet (ensureKey user feature []) feature
      (dictGetD (ensureKey user feature []) feature ++ [model]), false⟩

/-- Operating mode enum.  Modelled from the spec: enum.py is not among the
sources; the spec's data model lists the roles and compatibility.py uses
exactly these members. -/
inductive Mode where
  | default
  | repeater
  | accessPoint
  | mesh
  | meshLeaf
  | meshNode
deriving Repr, DecidableEq

/-- The raw value returned by `client.mode()`: either a scalar (already
rendered through Python `str(...)`) or a dict carrying optional `netmode`
and `mode` string fields. -/
inductive RawMode where
  | scalar (s : String)
  | obj (netmode : Option String) (mode : Option String)
deriving Repr, DecidableEq

/-- `raw_mode.get("netmode") or raw_mode.get("mode", "default")` for the dict
case (compatibility.py line 48); an absent or empty `netmode` is falsy. -/
def resolveRawMode : RawMode → String
  | .scalar s => s
  | .obj nm md =>
      match nm with
      | some s => if s = "" then md.getD "default" else s
      | none => md.getD "default"

/-- The `MODE_MAP` dict literal (compatibility.py lines 50-59). -/
def MODE_MAP : List (String × Mode) :=
  [("repeater", Mode.repeater),
   ("access_point", Mode.accessPoint),
   ("ap", Mode.accessPoint),
   ("mesh", Mode.mesh),
   ("router", Mode.default),
   ("default", Mode.default),
   ("8", Mode.meshLeaf),
   ("3", Mode.meshNode)]

/-- Mode detection (compatibility.py lines 42-66).  `.error` stands for a
raised `LuciError`/`KeyError`/`ValueError`/`AttributeError`, all of which the
source catches and answers with `self.mode = None`.  A normal response goes
through `MODE_MAP.get(str(raw_mode).lower(), Mode.DEFAULT)`. -/
def detectMode (resp : Except Unit RawMode) : Option Mode :=
  match resp with
  | .error _ => none
  | .ok raw => some ((dlookup MODE_MAP (pyLower (resolveRawMode raw))).getD Mode.default)

/-- Model detection (compatibility.py lines 68-75).  `.ok none` stands for an
`init_info` response without a `"hardware"` key (model stays `None`);
`isModel` decides whether `Model(hw.lower())` succeeds (the enum's member
set lives in enum.py, outside the sources); a failed construction raises
`ValueError`, caught by `except Exception`, leaving the model `None`. -/
def detectModel (isModel : String → Bool) (resp : Except Unit (Option String)) :
    Option String :=
  match resp with
  | .error _ => none
  | .ok none => none
  | .ok (some hw) => if isModel (pyLower hw) then some (pyLower hw) else none

/-- Observable outcome of one awaited call made by `_safe_call`: a dict
response, a literal `True`, some other non-exception value (which does not
count as success), or a raised exception of one of the three caught
classes. -/
inductive CallResult where
  | dictResp
  | trueResp
  | otherResp
  | errConn
  | errLuci
  | errOther
deriving Repr, DecidableEq

/-- `isinstance(resp, dict) or resp is True` (compatibility.py line 28);
every exception branch falls through to the sleep. -/
def isSuccess : CallResult → Bool
  | .dictResp => true
  | .trueResp => true
  | _ => false

/-- The retry loop of `_safe_call` (compatibility.py lines 23-37), indexed by
the current attempt number and the number of remaining attempts.  Returns
(result, number of invocations of the operation, number of one-second
sleeps): a successful attempt returns `True` before the sleep, a failed
attempt sleeps and continues, and exhaustion returns `False`. -/
def safeCallFrom (outcomes : Nat → CallResult) : Nat → Nat → Bool × Nat × Nat
  | _, 0 => (false, 0, 0)
  | attempt, n + 1 =>
      if isSuccess (outcomes attempt) then (true, 1, 0)
      else
        let r := safeCallFrom outcomes (attempt + 1) n
        (r.1, r.2.1 + 1, r.2.2 + 1)

/-- `_safe_call`: `for attempt in range(1, self.max_retries + 1)` makes
`max(0, max_retries)` attempts, numbered from 1. -/
def safeCall (outcomes : Nat → CallResult) (maxRetries : Int) : Bool × Nat × Nat :=
  safeCallFrom outcomes 1 maxRetries.toNat

/-- The `features` dict literal of `run` (compatibility.py lines 81-93), in
insertion order. -/
def featureOrder : List String :=
  ["mac_filter", "mac_filter_info", "per_device_qos", "rom_update",
   "flash_permission", "led_control", "guest_wifi", "wifi_config",
   "device_list", "topo_graph", "portforward"]

/-- `if self.model and self.model in unsupported_models` (compatibility.py
line 97): a `None` model is falsy and never triggers the static skip. -/
def skipP : Option String → List String → Bool
  | some m, lst => decide (m ∈ lst)
  | none, _ => false

/-- The per-feature loop of `run` (compatibility.py lines 95-104): skipped
features leave both accumulators untouched (`continue`), evaluated features
append their `_safe_call` verdict to `result` and their attempt count to the
call log. -/
def probeFold (skip : String → Bool) (eval : String → Bool × Nat)
    (acc : List (String × Bool) × List (String × Nat)) :
    List String → List (String × Bool) × List (String × Nat)
  | [] => acc
  | f :: fs =>
      probeFold skip eval
        (if skip f then acc
         else (acc.1 ++ [(f, (eval f).1)], acc.2 ++ [(f, (eval f).2)])) fs

/-- Observable outcome of one `CompatibilityChecker.run`: the detected mode
and model, the `self.result` dict (absent key = never recorded), and the
number of network attempts `_safe_call` made per feature (absent key = the
feature's operation was never invoked). -/
structure RunResult where
  mode : Option Mode
  model : Option String
  result : List (String × Bool)
  calls : List (String × Nat)
deriving Repr, DecidableEq

/-- `CompatibilityChecker.run` (compatibility.py lines 39-113): detect mode
and model, fetch the combined registry once, then walk the feature catalogue,
statically skipping features whose detected model is registered unsupported
and probing the rest through `_safe_call`. -/
def runChecker (isModel : String → Bool) (base user : List (String × List String))
    (modeResp : Except Unit RawMode) (hwResp : Except Unit (Option String))
    (outcomes : String → Nat → CallResult) (maxRetries : Int) : RunResult :=
  let mode := detectMode modeResp
  let model := detectModel isModel hwResp
  let combined := get_combined_unsupported base user
  let res := probeFold
    (fun feature => skipP model (dictGetD combined feature))
    (fun feature =>
      ((safeCall (outcomes feature) maxRetries).1,
       (safeCall (outcomes feature) maxRetries).2.1))
    ([], []) featureOrder
  ⟨mode, model, res.1, res.2⟩

/-- Exceptions observable at the discovery/checker boundary.  Modelled from
the spec: exceptions.py is not among the sources; the spec's error taxonomy
has connection-level and protocol-level errors, and discovery.py's ordered
`except LuciConnectionError` / `except LuciError` clauses show the former is
the more specific class.  `otherExc` is any exception outside that
hierarchy. -/
inductive PyExc where
  | luciConnection
  | luciProtocol
  | otherExc
deriving Repr, DecidableEq

/-- `isinstance(e, LuciConnectionError)`. -/
def isLuciConnectionError : PyExc → Bool
  | .luciConnection => true
  | _ => false

/-- `isinstance(e, LuciError)`: both the connection and protocol variants. -/
def isLuciError : PyExc → Bool
  | .luciConnection => true
  | .luciProtocol => true
  | .otherExc => false

/-- `CompatibilityChecker._check_qos_info` (compatibility.py lines 129-136):
mode-sensitive short-circuit to `None`, otherwise one call whose `LuciError`
is folded to `False` and whose other exceptions propagate. -/
def check_qos_info (mode : Option Mode) (outcome : Except PyExc Unit) :
    Except PyExc (Option Bool) :=
  if mode = some Mode.repeater ∨ mode = some Mode.accessPoint ∨
     mode = some Mode.mesh ∨ mode = some Mode.meshLeaf ∨ mode = some Mode.meshNode then
    .ok none
  else
    match outcome with
    | .ok _ => .ok (some true)
    | .error e => if isLuciError e then .ok (some false) else .error e

/-- `CompatibilityChecker._check_rom_update` (compatibility.py lines 138-145):
same shape as `_check_qos_info`. -/
def check_rom_update (mode : Option Mode) (outcome : Except PyExc Unit) :
    Except PyExc (Option Bool) :=
  if mode = some Mode.repeater ∨ mode = some Mode.accessPoint ∨
     mode = some Mode.mesh ∨ mode = some Mode.meshLeaf ∨ mode = some Mode.meshNode then
    .ok none
  else
    match outcome with
    | .ok _ => .ok (some true)
    | .error e => if isLuciError e then .ok (some false) else .error e

/-- One entry of a `leafs` list in a topology response (discovery.py):
optional `ip` and `hardware` string fields and a nested `leafs` list (an
absent `leafs` key is observably identical to an empty list, since the
source guards the recursion with `len(leaf["leafs"]) > 0`). -/
inductive Leaf where
  | node (ip : Option String) (hardware : Option String) (leafs : List Leaf)

/-- `response["graph"]`: optional `ip` and optional `leafs`. -/
structure Graph where
  ip : Option String
  leafs : Option (List Leaf)

/-- A `topo_graph` response: optional `graph` field. -/
structure TopoResponse where
  graph : Option Graph

mutual

/-- One step of `async_prepare_leafs` for a single leaf (discovery.py lines
148-161): skip entries missing a non-empty `ip` or `hardware`, append the
stripped address when the liveness check answers, then recurse into
non-empty nested `leafs`.  `alive` is the observable verdict of
`async_check_ip_address` per address. -/
def prepare_leaf (alive : String → Bool) (devices : List String) : Leaf → List String
  | .node ip hw ls =>
      match ip, hw with
      | some i, some h =>
          if i.length = 0 ∨ h.length = 0 then devices
          else
            let d2 := if alive (pyStrip i) then devices ++ [pyStrip i] else devices
            if 0 < ls.length then prepare_leafs alive d2 ls else d2
      | _, _ => devices

/-- `async_prepare_leafs` (discovery.py lines 139-163): fold `prepare_leaf`
over the sibling list, threading the accumulated device list. -/
def prepare_leafs (alive : String → Bool) (devices : List String) :
    List Leaf → List String
  | [] => devices
  | l :: rest => prepare_leafs alive (prepare_leaf alive devices l) rest

end

/-- The root-candidate loop of `async_discover_devices` (discovery.py lines
68-76): `response` starts as `{}`; the first candidate whose `topo_graph`
does not raise wins (`break`); a raised `LuciError` (connection or protocol)
is swallowed (`continue`); any other exception propagates. -/
def firstResponse : List (Except PyExc TopoResponse) → Except PyExc TopoResponse
  | [] => .ok ⟨none⟩
  | .ok r :: _ => .ok r
  | .error e :: rest => if isLuciError e then firstResponse rest else .error e

/-- The body of `async_discover_devices` after the candidate loop
(discovery.py lines 78-95): bail out to `[]` on a missing/empty `graph.ip`,
include the live root address, then walk `graph.leafs`. -/
def processTopoResponse (alive : String → Bool) (response : TopoResponse) :
    List String :=
  match response.graph with
  | none => []
  | some g =>
      match g.ip with
      | none => []
      | some ip =>
          if ip.length = 0 then []
          else
            let devices := if alive (pyStrip ip) then [pyStrip ip] else []
            match g.leafs with
            | none => devices
            | some ls => prepare_leafs alive devices ls

/-- `async_discover_devices` (discovery.py lines 61-95): pick the winning
candidate response and process it.  `outcomes` lists each candidate root's
`topo_graph` outcome in order; `alive` is the observable verdict of
`async_check_ip_address` per address. -/
def async_discover_devices (alive : String → Bool)
    (outcomes : List (Except PyExc TopoResponse)) : Except PyExc (List String) :=
  match firstResponse outcomes with
  | .error e => .error e
  | .ok response => .ok (processTopoResponse alive response)

/-- `async_check_ip_address` (discovery.py lines 166-181): a
`LuciConnectionError` from the probing `topo_graph` call yields `False`, any
other `LuciError` is passed over and the function returns `True`, a normal
response returns `True`, and anything else propagates. -/
def async_check_ip_address (outcome : Except PyExc TopoResponse) :
    Except PyExc Bool :=
  match outcome with
  | .ok _ => .ok true
  | .error e =>
      if isLuciConnectionError e then .ok false
      else if isLuciError e then .ok true
      else .error e

/-! ## Association-list lemmas -/

theorem dlookup_nil {α : Type} (k : String) : dlookup ([] : List (String × α)) k = none := rfl

theorem dlookup_cons {α : Type} (k' : String) (v : α) (rest : List (String × α)) (k : String) :
    dlookup ((k', v) :: rest) k = if k' = k then some v else dlookup rest k := rfl

theorem dlookup_append_none {α : Type} {l1 : List (String × α)} (l2 : List (String × α))
    {k : String} (h : dlookup l1 k = none) :
    dlookup (l1 ++ l2) k = dlookup l2 k := by
  induction l1 with
  | nil => rfl
  | cons p rest ih =>
      obtain ⟨k', v⟩ := p
      rw [dlookup_cons] at h
      by_cases hk : k' = k
      · rw [if_pos hk] at h
        exact absurd h (by simp)
      · rw [if_neg hk] at h
        rw [List.cons_append, dlookup_cons, if_neg hk]
        exact ih h

theorem dlookup_append_some {α : Type} {l1 : List (String × α)} (l2 : List (String × α))
    {k : String} {v : α} (h : dlookup l1 k = some v) :
    dlookup (l1 ++ l2) k = some v := by
  induction l1 with
  | nil => rw [dlookup_nil] at h; exact absurd h (by simp)
  | cons p rest ih =>
      obtain ⟨k', v'⟩ := p
      rw [dlookup_cons] at h
      by_cases hk : k' = k
      · rw [if_pos hk] at h
        rw [List.cons_append, dlookup_cons, if_pos hk]
        exact h
      · rw [if_neg hk] at h
        rw [List.cons_append, dlookup_cons, if_neg hk]
        exact ih h

theorem dlookup_append_single_ne {α : Type} (l : List (String × α)) {g f : String}
    (v : α) (h : g ≠ f) : dlookup (l ++ [(g, v)]) f = dlookup l f := by
  cases hl : dlookup l f with
  | none =>
      rw [dlookup_append_none _ hl, dlookup_cons, if_neg h, dlookup_nil]
  | some w => exact dlookup_append_some _ hl

theorem dlookup_dictSet_self {α : Type} (d : List (String × α)) (k : String) (v : α) :
    dlookup (dictSet d k v) k = some v := by
  induction d with
  | nil => simp [dictSet, dlookup_cons]
  | cons p rest ih =>
      obtain ⟨k', v'⟩ := p
      by_cases hk : k' = k
      · simp [dictSet, hk, dlookup_cons]
      · simp [dictSet, hk, dlookup_cons, ih]

theorem dlookup_dictSet_ne {α : Type} (d : List (String × α)) {k kq : String} (v : α)
    (h : kq ≠ k) : dlookup (dictSet d k v) kq = dlookup d kq := by
  have hk2 : ¬k = kq := fun hh => h (Eq.symm hh)
  induction d with
  | nil => simp [dictSet, dlookup_cons, dlookup_nil, hk2]
  | cons p rest ih =>
      obtain ⟨k', v'⟩ := p
      by_cases hkk : k' = k
      · subst hkk
        simp [dictSet, dlookup_cons, hk2]
      · simp only [dictSet, hkk, if_false]
        by_cases hq : k' = kq
        · simp [dlookup_cons, hq]
        · simp [dlookup_cons, hq, ih]

theorem dlookup_eq_none_iff {α : Type} (d : List (String × α)) (k : String) :
    dlookup d k = none ↔ k ∉ d.map Prod.fst := by
  induction d with
  | nil => simp [dlookup_nil]
  | cons p rest ih =>
      obtain ⟨k', v'⟩ := p
      by_cases hk : k' = k
      · simp [dlookup_cons, hk]
      · simp [dlookup_cons, hk, ih, Ne.symm hk]

theorem keys_dictSet {α : Type} (d : List (String × α)) (k : String) (v : α) :
    (dictSet d k v).map Prod.fst =
      if (dlookup d k).isSome then d.map Prod.fst else d.map Prod.fst ++ [k] := by
  induction d with
  | nil => simp [dictSet, dlookup_nil]
  | cons p rest ih =>
      obtain ⟨k', v'⟩ := p
      by_cases hk : k' = k
      · simp [dictSet, dlookup_cons, hk]
      · simp only [dictSet, hk, if_false, dlookup_cons, List.map_cons, ih]
        by_cases hs : (dlookup rest k).isSome <;> simp [hs]

/-! ## addModels lemmas -/

theorem addModels_nil (cur : List String) : addModels cur [] = cur := rfl

theorem addModels_cons (cur : List String) (x : String) (ms : List String) :
    addModels cur (x :: ms) = addModels (if x ∈ cur then cur else cur ++ [x]) ms := rfl

theorem mem_addModels (cur ms : List String) (m : String) :
    m ∈ addModels cur ms ↔ m ∈ cur ∨ m ∈ ms := by
  induction ms generalizing cur with
  | nil => simp [addModels_nil]
  | cons x ms ih =>
      rw [addModels_cons]
      by_cases hx : x ∈ cur
      · rw [if_pos hx, ih]
        constructor
        · rintro (h | h)
          · exact Or.inl h
          · exact Or.inr (List.mem_cons_of_mem _ h)
        · rintro (h | h)
          · exact Or.inl h
          · rcases List.mem_cons.mp h with h | h
            · exact Or.inl (h ▸ hx)
            · exact Or.inr h
      · rw [if_neg hx, ih]
        simp only [List.mem_append, List.mem_singleton, List.mem_cons]
        tauto

theorem count_addModels (cur ms : List String) (m : String) :
    (addModels cur ms).count m =
      if m ∈ cur then cur.count m else if m ∈ ms then 1 else 0 := by
  induction ms generalizing cur with
  | nil =>
      by_cases hm : m ∈ cur
      · simp [addModels_nil, hm]
      · simp [addModels_nil, hm, List.count_eq_zero_of_not_mem hm]
  | cons x ms ih =>
      rw [addModels_cons]
      by_cases hx : x ∈ cur
      · rw [if_pos hx, ih]
        by_cases hm : m ∈ cur
        · simp [hm]
        · have hmx : ¬m = x := fun h => hm (h ▸ hx)
          simp [hm, List.mem_cons, hmx]
      · rw [if_neg hx, ih]
        by_cases hm : m ∈ cur
        · have hmem : m ∈ cur ++ [x] := List.mem_append_left _ hm
          have hmx : ¬m = x := fun h => hx (h ▸ hm)
          simp [hm, hmem, List.count_append, hmx]
        · by_cases hmx : m = x
          · subst hmx
            have hmem : m ∈ cur ++ [m] := List.mem_append_right _ (List.mem_singleton_self m)
            simp [hm, hmem, List.count_append, List.count_eq_zero_of_not_mem hm]
          · have hmem : m ∉ cur ++ [x] := by
              simp [List.mem_append, hm, hmx]
            simp [hm, hmem, List.mem_cons, hmx]

/-! ## Registry merge lemmas -/

theorem dictGetD_mergeEntry (comb : List (String × List String))
    (k : String) (v : List String) (f : String) :
    dictGetD (mergeEntry comb (k, v)) f =
      if f = k then addModels (dictGetD comb k) v else dictGetD comb f := by
  unfold mergeEntry
  by_cases hk : (dlookup comb k).isSome
  · simp only [hk, if_true]
    by_cases hf : f = k
    · subst hf
      simp [dictGetD, dlookup_dictSet_self]
    · simp [dictGetD, dlookup_dictSet_ne _ _ hf, hf]
  · simp only [hk, if_false]
    have hnone : dlookup comb k = none := by
      cases h : dlookup comb k with
      | none => rfl
      | some w => rw [h] at hk; simp at hk
    by_cases hf : f = k
    · subst hf
      have h1 : dlookup (comb ++ [(f, ([] : List String))]) f = some [] := by
        rw [dlookup_append_none _ hnone, dlookup_cons, if_pos rfl]
      simp [dictGetD, dlookup_dictSet_self, h1, hnone]
    · have h1 : dlookup (comb ++ [(k, ([] : List String))]) f = dlookup comb f :=
        dlookup_append_single_ne _ _ (fun h => hf h.symm)
      simp [dictGetD, dlookup_dictSet_ne _ _ hf, hf, h1]

theorem dictGetD_combined (base user : List (String × List String)) (f : String)
    (hu : (user.map Prod.fst).Nodup) :
    dictGetD (get_combined_unsupported base user) f =
      addModels (dictGetD base f) (dictGetD user f) := by
  induction user generalizing base with
  | nil => simp [get_combined_unsupported, dictGetD, dlookup_nil, addModels_nil]
  | cons p rest ih =>
      obtain ⟨k, v⟩ := p
      have hu2 : (k :: rest.map Prod.fst).Nodup := by simpa using hu
      have hknotin : k ∉ rest.map Prod.fst := (List.nodup_cons.mp hu2).1
      have hrest : (rest.map Prod.fst).Nodup := (List.nodup_cons.mp hu2).2
      have hstep : get_combined_unsupported base ((k, v) :: rest) =
          get_combined_unsupported (mergeEntry base (k, v)) rest := rfl
      rw [hstep, ih _ hrest, dictGetD_mergeEntry]
      by_cases hf : f = k
      · subst hf
        have hnone : dlookup rest f = none := (dlookup_eq_none_iff _ _).mpr hknotin
        simp [dictGetD, dlookup_cons, hnone, addModels_nil]
      · have hne : ¬k = f := fun hh => hf (Eq.symm hh)
        simp [dictGetD, dlookup_cons, hne, hf]

/-! ## probeFold lemmas -/

theorem probeFold_fst_some (skip : String → Bool) (eval : String → Bool × Nat)
    (fs : List String) {f : String} {b : Bool}
    (acc : List (String × Bool) × List (String × Nat))
    (h : dlookup acc.1 f = some b) :
    dlookup (probeFold skip eval acc fs).1 f = some b := by
  induction fs generalizing acc with
  | nil => exact h
  | cons g fs ih =>
      show dlookup (probeFold skip eval
        (if skip g then acc
         else (acc.1 ++ [(g, (eval g).1)], acc.2 ++ [(g, (eval g).2)])) fs).1 f = some b
      by_cases hg : skip g
      · rw [if_pos hg]; exact ih _ h
      · rw [if_neg hg]
        exact ih _ (dlookup_append_some _ h)

theorem probeFold_snd_some (skip : String → Bool) (eval : String → Bool × Nat)
    (fs : List String) {f : String} {n : Nat}
    (acc : List (String × Bool) × List (String × Nat))
    (h : dlookup acc.2 f = some n) :
    dlookup (probeFold skip eval acc fs).2 f = some n := by
  induction fs generalizing acc with
  | nil => exact h
  | cons g fs ih =>
      show dlookup (probeFold skip eval
        (if skip g then acc
         else (acc.1 ++ [(g, (eval g).1)], acc.2 ++ [(g, (eval g).2)])) fs).2 f = some n
      by_cases hg : skip g
      · rw [if_pos hg]; exact ih _ h
      · rw [if_neg hg]
        exact ih _ (dlookup_append_some _ h)

theorem probeFold_skip (skip : String → Bool) (eval : String → Bool × Nat)
    (fs : List String) {f : String} (hf : skip f = true)
    (acc : List (String × Bool) × List (String × Nat)) :
    dlookup (probeFold skip eval acc fs).1 f = dlookup acc.1 f ∧
    dlookup (probeFold skip eval acc fs).2 f = dlookup acc.2 f := by
  induction fs generalizing acc with
  | nil => exact ⟨rfl, rfl⟩
  | cons g fs ih =>
      show dlookup (probeFold skip eval
        (if skip g then acc
         else (acc.1 ++ [(g, (eval g).1)], acc.2 ++ [(g, (eval g).2)])) fs).1 f
          = dlookup acc.1 f ∧
        dlookup (probeFold skip eval
        (if skip g then acc
         else (acc.1 ++ [(g, (eval g).1)], acc.2 ++ [(g, (eval g).2)])) fs).2 f
          = dlookup acc.2 f
      by_cases hg : skip g
      · rw [if_pos hg]; exact ih _
      · rw [if_neg hg]
        have hgf : g ≠ f := fun h => by rw [h] at hg; exact hg hf
        have e1 := dlookup_append_single_ne acc.1 ((eval g).1) hgf
        have e2 := dlookup_append_single_ne acc.2 ((eval g).2) hgf
        obtain ⟨i1, i2⟩ := ih (acc.1 ++ [(g, (eval g).1)], acc.2 ++ [(g, (eval g).2)])
        exact ⟨by rw [i1]; exact e1, by rw [i2]; exact e2⟩

theorem probeFold_eval (skip : String → Bool) (eval : String → Bool × Nat)
    (fs : List String) {f : String} (hf : f ∈ fs) (hskip : skip f = false)
    (acc : List (String × Bool) × List (String × Nat))
    (h1 : dlookup acc.1 f = none) (h2 : dlookup acc.2 f = none) :
    dlookup (probeFold skip eval acc fs).1 f = some (eval f).1 ∧
    dlookup (probeFold skip eval acc fs).2 f = some (eval f).2 := by
  induction fs generalizing acc with
  | nil => exact absurd hf (List.not_mem_nil f)
  | cons g fs ih =>
      show dlookup (probeFold skip eval
        (if skip g then acc
         else (acc.1 ++ [(g, (eval g).1)], acc.2 ++ [(g, (eval g).2)])) fs).1 f
          = some (eval f).1 ∧
        dlookup (probeFold skip eval
        (if skip g then acc
         else (acc.1 ++ [(g, (eval g).1)], acc.2 ++ [(g, (eval g).2)])) fs).2 f
          = some (eval f).2
      by_cases hgf : g = f
      · subst hgf
        rw [if_neg (by rw [hskip]; exact Bool.false_ne_true)]
        have e1 : dlookup (acc.1 ++ [(g, (eval g).1)]) g = some (eval g).1 := by
          rw [dlookup_append_none _ h1, dlookup_cons, if_pos rfl]
        have e2 : dlookup (acc.2 ++ [(g, (eval g).2)]) g = some (eval g).2 := by
          rw [dlookup_append_none _ h2, dlookup_cons, if_pos rfl]
        exact ⟨probeFold_fst_some _ _ _ _ e1, probeFold_snd_some _ _ _ _ e2⟩
      · have hmem : f ∈ fs := by
          rcases List.mem_cons.mp hf with h | h
          · exact absurd h.symm hgf
          · exact h
        by_cases hg : skip g
        · rw [if_pos hg]; exact ih hmem _ h1 h2
        · rw [if_neg hg]
          exact ih hmem _
            (by rw [dlookup_append_single_ne _ _ hgf]; exact h1)
            (by rw [dlookup_append_single_ne _ _ hgf]; exact h2)

/-! ## safeCall lemmas -/

theorem safeCallFrom_zero (o : Nat → CallResult) (a : Nat) :
    safeCallFrom o a 0 = (false, 0, 0) := rfl

theorem safeCallFrom_succ (o : Nat → CallResult) (a n : Nat) :
    safeCallFrom o a (n + 1) =
      if isSuccess (o a) then (true, 1, 0)
      else ((safeCallFrom o (a + 1) n).1,
            (safeCallFrom o (a + 1) n).2.1 + 1,
            (safeCallFrom o (a + 1) n).2.2 + 1) := rfl

theorem safeCallFrom_all_fail (o : Nat → CallResult) (n a : Nat)
    (h : ∀ j, j < n → isSuccess (o (a + j)) = false) :
    safeCallFrom o a n = (false, n, n) := by
  induction n generalizing a with
  | zero => rfl
  | succ n ih =>
      have h0 : isSuccess (o a) = false := by
        have := h 0 (Nat.succ_pos n)
        simpa using this
      rw [safeCallFrom_succ, h0]
      have hr : safeCallFrom o (a + 1) n = (false, n, n) := by
        apply ih
        intro j hj
        have := h (j + 1) (Nat.succ_lt_succ hj)
        have harith : a + (j + 1) = a + 1 + j := by omega
        rw [harith] at this
        exact this
      rw [hr]
      simp

theorem safeCallFrom_succeeds (o : Nat → CallResult) (t : Nat) :
    ∀ n a, t < n → (∀ j, j < t → isSuccess (o (a + j)) = false) →
    isSuccess (o (a + t)) = true →
    safeCallFrom o a n = (true, t + 1, t) := by
  induction t with
  | zero =>
      intro n a hn hfail hsucc
      obtain ⟨m, rfl⟩ := Nat.exists_eq_succ_of_ne_zero (Nat.pos_iff_ne_zero.mp hn)
      rw [safeCallFrom_succ]
      rw [show a + 0 = a from rfl] at hsucc
      rw [hsucc]
      simp
  | succ t ih =>
      intro n a hn hfail hsucc
      obtain ⟨m, rfl⟩ := Nat.exists_eq_succ_of_ne_zero
        (Nat.pos_iff_ne_zero.mp (Nat.lt_of_le_of_lt (Nat.zero_le _) hn))
      have h0 : isSuccess (o a) = false := by
        have := hfail 0 (Nat.succ_pos t)
        simpa using this
      rw [safeCallFrom_succ, h0]
      have hr : safeCallFrom o (a + 1) m = (true, t + 1, t) := by
        apply ih m (a + 1) (Nat.lt_of_succ_lt_succ hn)
        · intro j hj
          have := hfail (j + 1) (Nat.succ_lt_succ hj)
          have harith : a + (j + 1) = a + 1 + j := by omega
          rw [harith] at this
          exact this
        · have harith : a + (t + 1) = a + 1 + t := by omega
          rw [harith] at hsucc
          exact hsucc
      rw [hr]
      simp

/-! ## Claim theorems -/

/-- C7: `is_feature_unsupported(feature, model)` is true iff the model appears
in the built-in layer's list for that feature or in the user-override layer's
list for that feature; a pair present in only one of the two layers still
reports true, and a feature absent from both layers reports false for every
model. -/
theorem C7_is_feature_unsupported_iff (base user : List (String × List String))
    (feature model : String) (hu : (user.map Prod.fst).Nodup) :
    (is_feature_unsupported base user feature model = true ↔
      model ∈ dictGetD base feature ∨ model ∈ dictGetD user feature) ∧
    (dlookup base feature = none → dlookup user feature = none →
      is_feature_unsupported base user feature model = false) := by
  have hmain : is_feature_unsupported base user feature model = true ↔
      model ∈ dictGetD base feature ∨ model ∈ dictGetD user feature := by
    unfold is_feature_unsupported
    rw [dictGetD_combined base user feature hu]
    simp [mem_addModels]
  refine ⟨hmain, ?_⟩
  intro h1 h2
  by_contra hne
  have htrue : is_feature_unsupported base user feature model = true := by
    cases hbv : is_feature_unsupported base user feature model
    · exact absurd hbv hne
    · rfl
  rcases hmain.mp htrue with h | h
  · unfold dictGetD at h
    rw [h1] at h
    simp at h
  · unfold dictGetD at h
    rw [h2] at h
    simp at h

/-- Witness for C7 at concrete inputs: a pair present only in the user layer
reports true, a pair present only in the built-in layer reports true, and a
feature absent from both layers reports false. -/
theorem C7_witness :
    is_feature_unsupported UNSUPPORTED [("wifi_config", ["r3"])] "wifi_config" "r3" = true ∧
    is_feature_unsupported UNSUPPORTED [("wifi_config", ["r3"])] "wifi_config" "cr8806" = true ∧
    is_feature_unsupported UNSUPPORTED [("wifi_config", ["r3"])] "unknown_feature" "r3" = false :=
  ⟨(C7_is_feature_unsupported_iff UNSUPPORTED [("wifi_config", ["r3"])] "wifi_config" "r3"
      (by decide)).1.mpr (Or.inr (by decide)),
   (C7_is_feature_unsupported_iff UNSUPPORTED [("wifi_config", ["r3"])] "wifi_config" "cr8806"
      (by decide)).1.mpr (Or.inl (by decide)),
   (C7_is_feature_unsupported_iff UNSUPPORTED [("wifi_config", ["r3"])] "unknown_feature" "r3"
      (by decide)).2 (by decide) (by decide)⟩

/-- C8: after `addUnsupported(feature, model)` the combined registry includes
the model under the feature and holds it exactly once; a second call with the
same pair takes the distinct "already present" branch and leaves the user
layer unchanged, so no duplicate entry appears. -/
theorem C8_addUnsupported_roundtrip (base user : List (String × List String))
    (feature model : String) (hu : (user.map Prod.fst).Nodup)
    (hbase : (dictGetD base feature).Nodup) :
    model ∈ dictGetD (get_combined_unsupported base
      (addUnsupported base user feature model).userData) feature ∧
    (dictGetD (get_combined_unsupported base
      (addUnsupported base user feature model).userData) feature).count model = 1 ∧
    (addUnsupported base
      (addUnsupported base user feature model).userData feature model).alreadyExists = true ∧
    (addUnsupported base
      (addUnsupported base user feature model).userData feature model).userData =
      (addUnsupported base user feature model).userData := by
  by_cases hc : model ∈ dictGetD user feature ∨ model ∈ dictGetD base feature
  · have hadd : addUnsupported base user feature model = ⟨user, true⟩ := by
      unfold addUnsupported
      rw [if_pos hc]
    rw [hadd]
    have hcomb : dictGetD (get_combined_unsupported base user) feature =
        addModels (dictGetD base feature) (dictGetD user feature) :=
      dictGetD_combined base user feature hu
    refine ⟨?_, ?_, ?_, ?_⟩
    · show model ∈ dictGetD (get_combined_unsupported base user) feature
      rw [hcomb, mem_addModels]
      exact hc.symm
    · show (dictGetD (get_combined_unsupported base user) feature).count model = 1
      rw [hcomb, count_addModels]
      rcases hc with h | h
      · by_cases hb : model ∈ dictGetD base feature
        · rw [if_pos hb]
          exact List.count_eq_one_of_mem hbase hb
        · rw [if_neg hb, if_pos h]
      · rw [if_pos h]
        exact List.count_eq_one_of_mem hbase h
    · show (addUnsupported base user feature model).alreadyExists = true
      unfold addUnsupported
      rw [if_pos hc]
    · show (addUnsupported base user feature model).userData = user
      unfold addUnsupported
      rw [if_pos hc]
  · push_neg at hc
    obtain ⟨hnu, hnb⟩ := hc
    have hcond : ¬(model ∈ dictGetD user feature ∨ model ∈ dictGetD base feature) := by
      rw [not_or]
      exact ⟨hnu, hnb⟩
    have hgetD1 : dictGetD (ensureKey user feature []) feature = dictGetD user feature := by
      unfold ensureKey
      by_cases hs : (dlookup user feature).isSome
      · rw [if_pos hs]
      · rw [if_neg hs]
        have hnone : dlookup user feature = none := by
          cases h : dlookup user feature with
          | none => rfl
          | some w => rw [h] at hs; simp at hs
        unfold dictGetD
        rw [dlookup_append_none _ hnone, dlookup_cons, if_pos rfl, hnone]
        rfl
    have hadd : addUnsupported base user feature model =
        ⟨dictSet (ensureKey user feature []) feature
          (dictGetD user feature ++ [model]), false⟩ := by
      unfold addUnsupported
      rw [if_neg hcond, hgetD1]
    rw [hadd]
    have hgetDnew : dictGetD (dictSet (ensureKey user feature []) feature
        (dictGetD user feature ++ [model])) feature =
        dictGetD user feature ++ [model] := by
      unfold dictGetD
      rw [dlookup_dictSet_self]
      rfl
    have hkeys : ((dictSet (ensureKey user feature []) feature
        (dictGetD user feature ++ [model])).map Prod.fst).Nodup := by
      unfold ensureKey
      by_cases hs : (dlookup user feature).isSome
      · rw [if_pos hs, keys_dictSet, if_pos hs]
        exact hu
      · have hnone : dlookup user feature = none := by
          cases h : dlookup user feature with
          | none => rfl
          | some w => rw [h] at hs; simp at hs
        have hnotin : feature ∉ user.map Prod.fst := (dlookup_eq_none_iff _ _).mp hnone
        have happ : dlookup (user ++ [(feature, ([] : List String))]) feature = some [] := by
          rw [dlookup_append_none _ hnone, dlookup_cons, if_pos rfl]
        rw [if_neg hs, keys_dictSet, happ]
        simp only [Option.isSome_some, if_true, List.map_append]
        simp [List.nodup_append, hu, hnotin]
    have hcomb : dictGetD (get_combined_unsupported base
        (dictSet (ensureKey user feature []) feature
          (dictGetD user feature ++ [model]))) feature =
        addModels (dictGetD base feature) (dictGetD user feature ++ [model]) := by
      rw [dictGetD_combined _ _ _ hkeys, hgetDnew]
    have hmemnew : model ∈ dictGetD user feature ++ [model] :=
      List.mem_append_right _ (List.mem_singleton_self model)
    refine ⟨?_, ?_, ?_, ?_⟩
    · show model ∈ dictGetD (get_combined_unsupported base _) feature
      rw [hcomb, mem_addModels]
      exact Or.inr hmemnew
    · show (dictGetD (get_combined_unsupported base _) feature).count model = 1
      rw [hcomb, count_addModels, if_neg hnb, if_pos hmemnew]
    · show (addUnsupported base _ feature model).alreadyExists = true
      unfold addUnsupported
      rw [if_pos (Or.inl (by rw [hgetDnew]; exact hmemnew))]
    · show (addUnsupported base _ feature model).userData = _
      unfold addUnsupported
      rw [if_pos (Or.inl (by rw [hgetDnew]; exact hmemnew))]

/-- Witness for C8 at the spec's own example: add model r3 to feature
mac_filter over an empty user layer. -/
theorem C8_witness :
    "r3" ∈ dictGetD (get_combined_unsupported UNSUPPORTED
      (addUnsupported UNSUPPORTED [] "mac_filter" "r3").userData) "mac_filter" ∧
    (dictGetD (get_combined_unsupported UNSUPPORTED
      (addUnsupported UNSUPPORTED [] "mac_filter" "r3").userData) "mac_filter").count "r3" = 1 ∧
    (addUnsupported UNSUPPORTED
      (addUnsupported UNSUPPORTED [] "mac_filter" "r3").userData "mac_filter" "r3").alreadyExists = true ∧
    (addUnsupported UNSUPPORTED
      (addUnsupported UNSUPPORTED [] "mac_filter" "r3").userData "mac_filter" "r3").userData =
      (addUnsupported UNSUPPORTED [] "mac_filter" "r3").userData :=
  C8_addUnsupported_roundtrip UNSUPPORTED [] "mac_filter" "r3" (by decide) (by decide)

/-- C3: for every operation and maxRetries >= 1, if the operation fails on the
first k-1 attempts and succeeds on attempt k <= maxRetries, `_safe_call`
returns true after exactly k invocations and at least k-1 one-second pauses;
if the operation fails on every attempt, it returns false after exactly
maxRetries invocations. -/
theorem C3_safe_call :
    (∀ (o : Nat → CallResult) (m k : Nat), 1 ≤ k → k ≤ m →
      (∀ i, 1 ≤ i → i < k → isSuccess (o i) = false) → isSuccess (o k) = true →
      (safeCall o (m : Int)).1 = true ∧ (safeCall o (m : Int)).2.1 = k ∧
        k - 1 ≤ (safeCall o (m : Int)).2.2) ∧
    (∀ (o : Nat → CallResult) (m : Nat), (∀ i, isSuccess (o i) = false) →
      (safeCall o (m : Int)).1 = false ∧ (safeCall o (m : Int)).2.1 = m) := by
  constructor
  · intro o m k h1 hk hfail hsucc
    have ht : safeCallFrom o 1 m = (true, (k - 1) + 1, k - 1) := by
      apply safeCallFrom_succeeds o (k - 1) m 1
      · omega
      · intro j hj
        exact hfail (1 + j) (by omega) (by omega)
      · have harith : 1 + (k - 1) = k := by omega
        rw [harith]
        exact hsucc
    have hsc : safeCall o (m : Int) = (true, (k - 1) + 1, k - 1) := by
      unfold safeCall
      rw [Int.toNat_natCast]
      exact ht
    rw [hsc]
    refine ⟨rfl, ?_, ?_⟩
    · show (k - 1) + 1 = k
      omega
    · show k - 1 ≤ k - 1
      exact Nat.le_refl _
  · intro o m hfail
    have ht : safeCallFrom o 1 m = (false, m, m) :=
      safeCallFrom_all_fail o m 1 (fun j _ => hfail (1 + j))
    have hsc : safeCall o (m : Int) = (false, m, m) := by
      unfold safeCall
      rw [Int.toNat_natCast]
      exact ht
    rw [hsc]
    exact ⟨rfl, rfl⟩

/-- Witness for C3 at the spec's own numbers: an operation failing on
attempts 1 and 2 and succeeding on attempt 3 with maxRetries 3, and an
always-failing operation with maxRetries 5. -/
theorem C3_witness :
    ((safeCall (fun i => if 3 ≤ i then CallResult.dictResp else CallResult.errConn)
        ((3 : Nat) : Int)).1 = true ∧
     (safeCall (fun i => if 3 ≤ i then CallResult.dictResp else CallResult.errConn)
        ((3 : Nat) : Int)).2.1 = 3 ∧
     3 - 1 ≤ (safeCall (fun i => if 3 ≤ i then CallResult.dictResp else CallResult.errConn)
        ((3 : Nat) : Int)).2.2) ∧
    ((safeCall (fun _ => CallResult.errLuci) ((5 : Nat) : Int)).1 = false ∧
     (safeCall (fun _ => CallResult.errLuci) ((5 : Nat) : Int)).2.1 = 5) :=
  ⟨C3_safe_call.1 (fun i => if 3 ≤ i then CallResult.dictResp else CallResult.errConn)
      3 3 (by decide) (by decide)
      (fun i h1 h2 => by interval_cases i <;> decide) (by decide),
   C3_safe_call.2 (fun _ => CallResult.errLuci) 5 (fun i => rfl)⟩

/-- C10: with maxRetries <= 0, `_safe_call` returns false without invoking
the operation even once; consequently a `run` with maxRetries = 0 records
every feature it evaluates (i.e. does not statically skip) as unsupported
(false) with zero attempts of its operation. -/
theorem C10_zero_retries :
    (∀ (o : Nat → CallResult) (mr : Int), mr ≤ 0 → safeCall o mr = (false, 0, 0)) ∧
    (∀ (isModel : String → Bool) (base user : List (String × List String))
       (modeResp : Except Unit RawMode) (hwResp : Except Unit (Option String))
       (outcomes : String → Nat → CallResult) (f : String),
       f ∈ featureOrder →
       skipP (detectModel isModel hwResp)
         (dictGetD (get_combined_unsupported base user) f) = false →
       dlookup (runChecker isModel base user modeResp hwResp outcomes 0).result f
         = some false ∧
       dlookup (runChecker isModel base user modeResp hwResp outcomes 0).calls f
         = some 0) := by
  have hzero : ∀ (o : Nat → CallResult) (mr : Int), mr ≤ 0 →
      safeCall o mr = (false, 0, 0) := by
    intro o mr h
    unfold safeCall
    rw [Int.toNat_of_nonpos h]
    rfl
  refine ⟨hzero, ?_⟩
  intro isModel base user modeResp hwResp outcomes f hf hskip
  have h := probeFold_eval
    (fun feature => skipP (detectModel isModel hwResp)
      (dictGetD (get_combined_unsupported base user) feature))
    (fun feature =>
      ((safeCall (outcomes feature) 0).1, (safeCall (outcomes feature) 0).2.1))
    featureOrder hf hskip ([], []) rfl rfl
  have e1 : (runChecker isModel base user modeResp hwResp outcomes 0).result =
      (probeFold
        (fun feature => skipP (detectModel isModel hwResp)
          (dictGetD (get_combined_unsupported base user) feature))
        (fun feature =>
          ((safeCall (outcomes feature) 0).1, (safeCall (outcomes feature) 0).2.1))
        ([], []) featureOrder).1 := rfl
  have e2 : (runChecker isModel base user modeResp hwResp outcomes 0).calls =
      (probeFold
        (fun feature => skipP (detectModel isModel hwResp)
          (dictGetD (get_combined_unsupported base user) feature))
        (fun feature =>
          ((safeCall (outcomes feature) 0).1, (safeCall (outcomes feature) 0).2.1))
        ([], []) featureOrder).2 := rfl
  have hz := hzero (outcomes f) 0 (by omega)
  constructor
  · rw [e1, h.1]
    show some (safeCall (outcomes f) 0).1 = some false
    rw [hz]
  · rw [e2, h.2]
    show some (safeCall (outcomes f) 0).2.1 = some 0
    rw [hz]

/-- Witness for C10 at a concrete run: maxRetries 0, router mode, model
cr8806, operations that would succeed if ever invoked; the non-skipped
feature mac_filter is recorded false after zero attempts, and the safeCall
part at maxRetries -2. -/
theorem C10_witness :
    safeCall (fun _ => CallResult.dictResp) (-2) = (false, 0, 0) ∧
    dlookup (runChecker (fun s => decide (s = "cr8806")) UNSUPPORTED []
      (Except.ok (RawMode.scalar "router")) (Except.ok (some "CR8806"))
      (fun _ _ => CallResult.dictResp) 0).result "mac_filter" = some false ∧
    dlookup (runChecker (fun s => decide (s = "cr8806")) UNSUPPORTED []
      (Except.ok (RawMode.scalar "router")) (Except.ok (some "CR8806"))
      (fun _ _ => CallResult.dictResp) 0).calls "mac_filter" = some 0 :=
  ⟨C10_zero_retries.1 (fun _ => CallResult.dictResp) (-2) (by omega),
   (C10_zero_retries.2 (fun s => decide (s = "cr8806")) UNSUPPORTED []
      (Except.ok (RawMode.scalar "router")) (Except.ok (some "CR8806"))
      (fun _ _ => CallResult.dictResp) "mac_filter" (by decide) (by decide)).1,
   (C10_zero_retries.2 (fun s => decide (s = "cr8806")) UNSUPPORTED []
      (Except.ok (RawMode.scalar "router")) (Except.ok (some "CR8806"))
      (fun _ _ => CallResult.dictResp) "mac_filter" (by decide) (by decide)).2⟩

/-- C1 (amended): when the detected model appears in the combined unsupported
set for a feature, `run` performs no network call for that feature and leaves
it absent from the returned result (it does not record it as unsupported). -/
theorem C1_static_skip_amended (isModel : String → Bool)
    (base user : List (String × List String)) (modeResp : Except Unit RawMode)
    (hwResp : Except Unit (Option String)) (outcomes : String → Nat → CallResult)
    (mr : Int) (f m : String)
    (hm : (runChecker isModel base user modeResp hwResp outcomes mr).model = some m)
    (hmem : m ∈ dictGetD (get_combined_unsupported base user) f) :
    dlookup (runChecker isModel base user modeResp hwResp outcomes mr).result f = none ∧
    dlookup (runChecker isModel base user modeResp hwResp outcomes mr).calls f = none := by
  have hmodel : detectModel isModel hwResp = some m := hm
  have hskip : (fun feature => skipP (detectModel isModel hwResp)
      (dictGetD (get_combined_unsupported base user) feature)) f = true := by
    show skipP (detectModel isModel hwResp)
      (dictGetD (get_combined_unsupported base user) f) = true
    rw [hmodel]
    simp [skipP, hmem]
  have h := probeFold_skip
    (fun feature => skipP (detectModel isModel hwResp)
      (dictGetD (get_combined_unsupported base user) feature))
    (fun feature =>
      ((safeCall (outcomes feature) mr).1, (safeCall (outcomes feature) mr).2.1))
    featureOrder hskip ([], [])
  exact ⟨h.1, h.2⟩

/-- Counterexample to C1 as stated: probing a node whose model cr8806 is
statically listed under wifi_config makes no network call for that feature,
but the returned result does not record wifi_config at all — in particular it
does not map it to the unsupported verdict `false`. -/
theorem C1_counterexample :
    (runChecker (fun s => decide (s = "cr8806")) UNSUPPORTED []
      (Except.ok (RawMode.scalar "router")) (Except.ok (some "CR8806"))
      (fun _ _ => CallResult.errLuci) 1).model = some "cr8806" ∧
    "cr8806" ∈ dictGetD (get_combined_unsupported UNSUPPORTED []) "wifi_config" ∧
    dlookup (runChecker (fun s => decide (s = "cr8806")) UNSUPPORTED []
      (Except.ok (RawMode.scalar "router")) (Except.ok (some "CR8806"))
      (fun _ _ => CallResult.errLuci) 1).result "wifi_config" = none ∧
    ¬ dlookup (runChecker (fun s => decide (s = "cr8806")) UNSUPPORTED []
      (Except.ok (RawMode.scalar "router")) (Except.ok (some "CR8806"))
      (fun _ _ => CallResult.errLuci) 1).result "wifi_config" = some false ∧
    dlookup (runChecker (fun s => decide (s = "cr8806")) UNSUPPORTED []
      (Except.ok (RawMode.scalar "router")) (Except.ok (some "CR8806"))
      (fun _ _ => CallResult.errLuci) 1).calls "wifi_config" = none := by decide

/-- Witness for the amended C1 at a concrete input: model cr8806, feature
wifi_config, maxRetries 3. -/
theorem C1_witness :
    dlookup (runChecker (fun s => decide (s = "cr8806")) UNSUPPORTED []
      (Except.ok (RawMode.scalar "router")) (Except.ok (some "CR8806"))
      (fun _ _ => CallResult.dictResp) 3).result "wifi_config" = none ∧
    dlookup (runChecker (fun s => decide (s = "cr8806")) UNSUPPORTED []
      (Except.ok (RawMode.scalar "router")) (Except.ok (some "CR8806"))
      (fun _ _ => CallResult.dictResp) 3).calls "wifi_config" = none :=
  C1_static_skip_amended (fun s => decide (s = "cr8806")) UNSUPPORTED []
    (Except.ok (RawMode.scalar "router")) (Except.ok (some "CR8806"))
    (fun _ _ => CallResult.dictResp) 3 "wifi_config" "cr8806" (by decide) (by decide)

/-- C2 (code bug): in mesh mode, `run` still invokes the qos-info and
rom-update operations through `_safe_call` and records them supported/
unsupported, never the not-applicable `None` — even though the (never
invoked) helpers `_check_qos_info` and `_check_rom_update` answer `None`
for that very mode before any network call. -/
theorem C2_mesh_mode_probe_bug :
    (runChecker (fun _ => true) UNSUPPORTED [] (Except.ok (RawMode.scalar "mesh"))
      (Except.error ()) (fun _ _ => CallResult.dictResp) 1).mode = some Mode.mesh ∧
    dlookup (runChecker (fun _ => true) UNSUPPORTED [] (Except.ok (RawMode.scalar "mesh"))
      (Except.error ()) (fun _ _ => CallResult.dictResp) 1).result "per_device_qos"
      = some true ∧
    dlookup (runChecker (fun _ => true) UNSUPPORTED [] (Except.ok (RawMode.scalar "mesh"))
      (Except.error ()) (fun _ _ => CallResult.dictResp) 1).calls "per_device_qos"
      = some 1 ∧
    dlookup (runChecker (fun _ => true) UNSUPPORTED [] (Except.ok (RawMode.scalar "mesh"))
      (Except.error ()) (fun _ _ => CallResult.dictResp) 1).result "rom_update"
      = some true ∧
    dlookup (runChecker (fun _ => true) UNSUPPORTED [] (Except.ok (RawMode.scalar "mesh"))
      (Except.error ()) (fun _ _ => CallResult.dictResp) 1).calls "rom_update"
      = some 1 ∧
    check_qos_info (some Mode.mesh) (Except.ok ()) = Except.ok none ∧
    check_rom_update (some Mode.mesh) (Except.ok ()) = Except.ok none := by decide

/-- C9 (amended): a mode response whose rendered value is found in the
lookup table maps through it, an unrecognized value maps to `Mode.default`,
but an exception during detection leaves the mode unset (`None`), not
`Mode.default`; either way the probe is not aborted — the per-feature
results and call counts are identical to any run whose detection
succeeded. -/
theorem C9_mode_detection_amended :
    (∀ (raw : RawMode) (md : Mode),
      dlookup MODE_MAP (pyLower (resolveRawMode raw)) = some md →
      detectMode (Except.ok raw) = some md) ∧
    (∀ raw : RawMode,
      dlookup MODE_MAP (pyLower (resolveRawMode raw)) = none →
      detectMode (Except.ok raw) = some Mode.default) ∧
    detectMode (Except.error ()) = none ∧
    (∀ (isModel : String → Bool) (base user : List (String × List String))
       (hwResp : Except Unit (Option String)) (outcomes : String → Nat → CallResult)
       (mr : Int) (raw : RawMode),
      (runChecker isModel base user (Except.error ()) hwResp outcomes mr).result =
        (runChecker isModel base user (Except.ok raw) hwResp outcomes mr).result ∧
      (runChecker isModel base user (Except.error ()) hwResp outcomes mr).calls =
        (runChecker isModel base user (Except.ok raw) hwResp outcomes mr).calls) := by
  refine ⟨?_, ?_, rfl, ?_⟩
  · intro raw md h
    show some ((dlookup MODE_MAP (pyLower (resolveRawMode raw))).getD Mode.default)
      = some md
    rw [h]
    rfl
  · intro raw h
    show some ((dlookup MODE_MAP (pyLower (resolveRawMode raw))).getD Mode.default)
      = some Mode.default
    rw [h]
    rfl
  · intro isModel base user hwResp outcomes mr raw
    exact ⟨rfl, rfl⟩

/-- Counterexample to C9 as stated: when the mode query raises, the probe
keeps running (features still get results) but its mode is `None`, not
`Mode.default`. -/
theorem C9_counterexample :
    (runChecker (fun _ => true) UNSUPPORTED [] (Except.error ()) (Except.error ())
      (fun _ _ => CallResult.trueResp) 2).mode = none ∧
    ¬ (runChecker (fun _ => true) UNSUPPORTED [] (Except.error ()) (Except.error ())
      (fun _ _ => CallResult.trueResp) 2).mode = some Mode.default ∧
    dlookup (runChecker (fun _ => true) UNSUPPORTED [] (Except.error ()) (Except.error ())
      (fun _ _ => CallResult.trueResp) 2).result "led_control" = some true := by decide

/-- Witness for the amended C9 at concrete raw values: a known value (case
insensitively) maps through the table, an unknown one falls back to
`Mode.default`. -/
theorem C9_witness :
    detectMode (Except.ok (RawMode.scalar "Repeater")) = some Mode.repeater ∧
    detectMode (Except.ok (RawMode.scalar "strange_mode")) = some Mode.default :=
  ⟨C9_mode_detection_amended.1 (RawMode.scalar "Repeater") Mode.repeater (by decide),
   C9_mode_detection_amended.2.1 (RawMode.scalar "strange_mode") (by decide)⟩

/-- C4 (code bug): discovery does not deduplicate.  A topology whose children
graph reports the same live address 10.0.0.3 in two branches makes
`async_discover_devices` return that address twice. -/
theorem C4_duplicate_addresses :
    async_discover_devices (fun _ => true)
      [Except.ok ⟨some ⟨some "10.0.0.1",
        some [Leaf.node (some "10.0.0.2") (some "r3")
                [Leaf.node (some "10.0.0.3") (some "r4") []],
              Leaf.node (some "10.0.0.3") (some "r1d") []]⟩⟩] =
      Except.ok ["10.0.0.1", "10.0.0.2", "10.0.0.3", "10.0.0.3"] ∧
    ¬ (["10.0.0.1", "10.0.0.2", "10.0.0.3", "10.0.0.3"] : List String).Nodup := by
  constructor
  · simp only [async_discover_devices, firstResponse, processTopoResponse,
      prepare_leafs, prepare_leaf]
    decide
  · decide

/-- C5 (amended): discovery tries the candidates in order and the first whose
topology query returns WITHOUT RAISING wins — whether or not the response is
well-formed — and the remaining candidates are not tried; a candidate that
raises a classified error is skipped; if every candidate raises, the result
is the empty list, not an exception. -/
theorem C5_candidate_order_amended (alive : String → Bool) :
    (∀ (e : PyExc) (rest : List (Except PyExc TopoResponse)), isLuciError e = true →
      async_discover_devices alive (Except.error e :: rest) =
        async_discover_devices alive rest) ∧
    (∀ (r : TopoResponse) (rest : List (Except PyExc TopoResponse)),
      async_discover_devices alive (Except.ok r :: rest) =
        async_discover_devices alive [Except.ok r]) ∧
    async_discover_devices alive [] = Except.ok [] := by
  refine ⟨?_, ?_, rfl⟩
  · intro e rest h
    have hfr : firstResponse (Except.error e :: rest) = firstResponse rest := by
      show (if isLuciError e then firstResponse rest else Except.error e) =
        firstResponse rest
      rw [h]
      simp
    unfold async_discover_devices
    rw [hfr]
  · intro r rest
    rfl

/-- Counterexample to C5 as stated: a first candidate answering a malformed
(empty) response without raising still wins, so a later candidate with a
well-formed descriptor is never tried and discovery returns the empty list
— even though that same well-formed candidate alone would discover its live
root address. -/
theorem C5_counterexample :
    async_discover_devices (fun _ => true)
      [Except.ok ⟨none⟩, Except.ok ⟨some ⟨some "10.0.0.1", none⟩⟩] = Except.ok [] ∧
    async_discover_devices (fun _ => true)
      [Except.ok ⟨some ⟨some "10.0.0.1", none⟩⟩] = Except.ok ["10.0.0.1"] := by decide

/-- Witness for the amended C5 at concrete inputs: a raising candidate is
skipped and an exhausted candidate list yields the empty list without an
error. -/
theorem C5_witness :
    async_discover_devices (fun _ => true) [Except.error PyExc.luciConnection] =
      Except.ok [] := by
  rw [(C5_candidate_order_amended (fun _ => true)).1 PyExc.luciConnection [] (by decide)]
  exact (C5_candidate_order_amended (fun _ => true)).2.2

/-- C6: the liveness check answers false on a connection-level error, true on
a protocol-level error (reachability is the signal), and true on a normal
response. -/
theorem C6_liveness_check (r : TopoResponse) :
    async_check_ip_address (Except.ok r) = Except.ok true ∧
    async_check_ip_address (Except.error PyExc.luciConnection) = Except.ok false ∧
    async_check_ip_address (Except.error PyExc.luciProtocol) = Except.ok true :=
  ⟨rfl, rfl, rfl⟩
